import Mathlib

/-!
Verification of the citizen-safety backend's real-time alert subsystem.

The definitions below are a shallow embedding of the Python source:
- `haversine` embeds `modules/alerts/manager.py::haversine`,
- `neighborhoodRecipients` / `computeRecipients` / `broadcastLoop` embed
  the recipient selection and fan-out of
  `modules/alerts/manager.py::trigger_alert`,
- `trigger_alert` / `resolve_alert` / `getAlertRow` embed the alert
  lifecycle operations of `modules/alerts/manager.py`,
- `websocketCleanup` embeds the exit paths of
  `modules/alerts/router.py::websocket_alerts`,
- the column lists embed the INSERT of `trigger_alert` and the `alerts`
  table of `modules/shared/schema.py`.

Machine floats are modelled as real numbers; database timestamps as
naturals (epoch seconds); websocket connections by their identity, a
`Nat`.  Nullable values are `Option`s.  External collaborators (the
asyncpg pool, the websocket transport, the push gateway) are abstracted
by explicit parameters: `insertEx`/`dispatchEx` model an exception raised
by the corresponding phase, `sendOk` models whether `send_text` to a
given connection succeeds.
-/

namespace CitizenSafety

open Real
open Classical

/-- `math.radians`: degrees to radians. -/
noncomputable def radians (x : ℝ) : ℝ := x * (Real.pi / 180)

/-- `math.atan2 y x`: the two-argument arctangent, by quadrant. -/
noncomputable def atan2 (y x : ℝ) : ℝ :=
  if 0 < x then Real.arctan (y / x)
  else if x < 0 ∧ 0 ≤ y then Real.arctan (y / x) + Real.pi
  else if x < 0 ∧ y < 0 then Real.arctan (y / x) - Real.pi
  else if x = 0 ∧ 0 < y then Real.pi / 2
  else if x = 0 ∧ y < 0 then -(Real.pi / 2)
  else 0

/-- `manager.py::haversine` (lines 44-55): great-circle distance in km. -/
noncomputable def haversine (lat1 lon1 lat2 lon2 : ℝ) : ℝ :=
  let R : ℝ := 6371
  let phi1 := radians lat1
  let phi2 := radians lat2
  let dphi := radians (lat2 - lat1)
  let dlambda := radians (lon2 - lon1)
  let a := Real.sin (dphi / 2) ^ 2 +
    Real.cos phi1 * Real.cos phi2 * Real.sin (dlambda / 2) ^ 2
  let c := 2 * atan2 (Real.sqrt a) (Real.sqrt (1 - a))
  R * c

/-- The spec's description of `distanceKm`: the haversine great-circle
formula with Earth radius 6371 km, in its standard `2 R arcsin (sqrt a)`
form (used to compare against the source's `atan2` form). -/
noncomputable def distanceKmSpec (lat1 lon1 lat2 lon2 : ℝ) : ℝ :=
  let a := Real.sin (radians (lat2 - lat1) / 2) ^ 2 +
    Real.cos (radians lat1) * Real.cos (radians lat2) *
      Real.sin (radians (lon2 - lon1) / 2) ^ 2
  2 * 6371 * Real.arcsin (Real.sqrt a)

/-- The `a` value of the haversine formula, exactly as computed in
`manager.py::haversine`. -/
noncomputable def haversineA (lat1 lon1 lat2 lon2 : ℝ) : ℝ :=
  Real.sin (radians (lat2 - lat1) / 2) ^ 2 +
    Real.cos (radians lat1) * Real.cos (radians lat2) *
      Real.sin (radians (lon2 - lon1) / 2) ^ 2

/-- Per-connection state stored in `connected_alert_clients`
(`manager.py` line 33, populated in `router.py::websocket_alerts`):
`location` is `None` until a `register_location` message arrives, and a
registered pair's components may themselves be null (`msg.get` defaults
to `None`). -/
structure ConnInfo where
  location : Option (Option ℝ × Option ℝ)
  user_id : Option String

/-- The in-memory registry `connected_alert_clients`: an insertion-ordered
dict from live websocket connections (modelled by their identity, a `Nat`;
dict keys are unique) to their tracked state. -/
abbrev Registry : Type := List (Nat × ConnInfo)

/-- Recipient selection for `broadcast_neighborhood` (`manager.py` lines
144-159): for each tracked client, when its location is set and has no
null component, the haversine distance from the alert's coordinates is
computed and the client is included iff the distance is `<= radius_km`;
an exception inside the distance computation (in particular the
`TypeError` raised when `alert.location_lon` is null) is caught and the
client is skipped. -/
noncomputable def neighborhoodRecipients (alat : ℝ) (alon : Option ℝ)
    (radius : ℝ) (reg : Registry) : List Nat :=
  reg.filterMap fun p =>
    match p.2.location with
    | none => none
    | some (clatOpt, clonOpt) =>
      match clatOpt, clonOpt with
      | some clat, some clon =>
        match alon with
        | none => none
        | some alon0 =>
          if haversine alat alon0 clat clon ≤ radius then some p.1 else none
      | _, _ => none

/-- The recipient computation of `trigger_alert` (`manager.py` lines
136-159): all connected clients for `broadcast_all`, the radius filter
otherwise. -/
noncomputable def computeRecipients (btype : String) (alat : ℝ)
    (alon : Option ℝ) (radius : ℝ) (reg : Registry) : List Nat :=
  if btype = "broadcast_all" then reg.map Prod.fst
  else neighborhoodRecipients alat alon radius reg

/-- The broadcast loop of `trigger_alert` (`manager.py` lines 160-172):
each recipient's `send_text` is attempted in order; a raising send is
caught individually, the failing connection is popped from
`connected_alert_clients`, and the loop continues with the remaining
recipients.  `sendOk c = false` models `ws.send_text` raising for
connection `c`.  Returns the recipients whose send succeeded and the
registry after the loop; the function is total, modelling that no send
failure escapes to the caller. -/
def broadcastLoop (recips : List Nat) (sendOk : Nat → Bool)
    (reg : Registry) : List Nat × Registry :=
  match recips with
  | [] => ([], reg)
  | ws :: rest =>
    if sendOk ws then
      let r := broadcastLoop rest sendOk reg
      (ws :: r.1, r.2)
    else
      broadcastLoop rest sendOk (reg.filter fun p => p.1 != ws)

/-- How the receive loop of `router.py::websocket_alerts` (lines 93-111)
terminates: `disconnect` is a `WebSocketDisconnect` raised by
`receive_text`; `otherException` is any other exception or a task
cancellation escaping the loop (the inner `try` swallows errors of
message handling, so only `receive_text` can abort the loop). -/
inductive ExitCause where
  | disconnect
  | otherException

/-- The registry state after the handler of `router.py::websocket_alerts`
exits: the function has `try ... except WebSocketDisconnect:
connected_alert_clients.pop(websocket, None)` and no other handler and no
cleanup clause, so the entry is removed only on the
`WebSocketDisconnect` path. -/
def websocketCleanup (reg : Registry) (ws : Nat) (cause : ExitCause) : Registry :=
  match cause with
  | .disconnect => reg.filter fun p => p.1 != ws
  | .otherException => reg

/-- The authenticated actor (`current_user` from the auth layer): id and
role (`citizen`, `emergency_service` or `admin`). -/
structure User where
  id : String
  role : String

/-- The request model `AlertTrigger` (`modules/alerts/models.py` lines
5-12): `location_lon` is `Optional[float]` and `radius_km` a plain
`float` with no sign constraint, so a null longitude and a negative
radius pass validation. -/
structure AlertTrigger where
  trigger_source : String
  type : String
  message : String
  location_lat : ℝ
  location_lon : Option ℝ
  radius_km : ℝ
  broadcast_type : String

/-- A row of the `alerts` table (`schema.py` lines 40-52), together with
the `triggered_by` value that the INSERT of `trigger_alert` writes even
though `schema.py` declares no such column (see `alertsTableColumns`).
Columns that are nullable at the database level are `Option`s. -/
structure AlertRow where
  id : String
  trigger_source : String
  type : String
  message : String
  broadcast_type : Option String
  location_lat : Option ℝ
  location_lon : Option ℝ
  radius_km : Option ℝ
  status : String
  created_at : Nat
  cooldown_until : Option Nat
  triggered_by : Option String

/-- The row built by the INSERT of `trigger_alert` (`manager.py` lines
108-120): it assigns id, trigger_source, type, message, location_lat,
location_lon, radius_km, created_at (`NOW()`) and triggered_by; `status`
takes the schema default `ACTIVE`; `broadcast_type` is not assigned by
this INSERT and `cooldown_until` stays null. -/
def mkAlertRow (newId : String) (a : AlertTrigger) (user : User)
    (now : Nat) : AlertRow where
  id := newId
  trigger_source := a.trigger_source
  type := a.type
  message := a.message
  broadcast_type := none
  location_lat := some a.location_lat
  location_lon := a.location_lon
  radius_km := some a.radius_km
  status := "ACTIVE"
  created_at := now
  cooldown_until := none
  triggered_by := some user.id

/-- The JSON responses of `modules/shared/response.py`:
`success_response(data, message)` or `error_response(message, code)`. -/
inductive Resp (α : Type) where
  | success (data : α) (message : String)
  | error (message : String) (code : Nat)

/-- `manager.py::trigger_alert` (lines 98-181).  `insertEx` models an
exception raised by the INSERT's `execute_query` (the row is then not
written); `dispatchEx` models an exception raised between the committed
INSERT and the broadcast loop (for instance the token query inside
`send_push_sms_email_to_all`); both are caught by the function's outer
`except` and turned into a 500 response.  Returns the response together
with the resulting database and registry states. -/
noncomputable def trigger_alert (a : AlertTrigger) (user : User)
    (db : List AlertRow) (reg : Registry) (now : Nat) (newId : String)
    (insertEx : Option String) (dispatchEx : Option String)
    (sendOk : Nat → Bool) : Resp (String × Nat) × List AlertRow × Registry :=
  if user.role ≠ "emergency_service" then
    (.error "Permission denied" 403, db, reg)
  else
    match insertEx with
    | some e => (.error e 500, db, reg)
    | none =>
      let row := mkAlertRow newId a user now
      let db2 := db ++ [row]
      match dispatchEx with
      | some e => (.error e 500, db2, reg)
      | none =>
        let recips := computeRecipients a.broadcast_type a.location_lat
          a.location_lon a.radius_km reg
        let res := broadcastLoop recips sendOk reg
        (.success (newId, now) "Alert triggered successfully", db2, res.2)

/-- `manager.py::resolve_alert` (lines 183-209): the UPDATE sets
`status = 'RESOLVED'` and `cooldown_until = NOW() + INTERVAL '1 hour'`
on every row whose id matches, and `RETURNING id` with `fetch_one` yields
the first matched id; an empty result gives the 404 response. -/
def resolve_alert (alertId : String) (user : User) (db : List AlertRow)
    (now : Nat) : Resp String × List AlertRow :=
  if user.role ≠ "emergency_service" then
    (.error "Permission denied" 403, db)
  else
    let db2 := db.map fun r =>
      if r.id == alertId then
        { r with status := "RESOLVED", cooldown_until := some (now + 3600) }
      else r
    match (db.filter fun r => r.id == alertId).map AlertRow.id with
    | [] => (.error "Alert not found" 404, db2)
    | rid :: _ => (.success rid "Alert resolved successfully", db2)

/-- The row lookup of `manager.py::get_alert_by_id` (lines 313-338):
`SELECT ... WHERE id = $1`, first result. -/
def getAlertRow (db : List AlertRow) (alertId : String) : Option AlertRow :=
  db.find? fun r => r.id == alertId

/-- The column list of the INSERT in `trigger_alert` (`manager.py`
lines 108-113). -/
def alertsInsertColumns : List String :=
  ["id", "trigger_source", "type", "message", "location_lat",
   "location_lon", "radius_km", "created_at", "triggered_by"]

/-- The columns of the `alerts` table per `schema.py` lines 40-52 (the
schema actually used: `main.py` calls `modules.shared.schema.create_tables`
on startup). -/
def alertsTableColumns : List String :=
  ["id", "trigger_source", "type", "message", "broadcast_type",
   "location_lat", "location_lon", "radius_km", "status", "created_at",
   "cooldown_until"]

/-- `alerts` columns declared NOT NULL without a DEFAULT in `schema.py`:
an INSERT that leaves one of them unassigned is rejected. -/
def alertsRequiredInsertColumns : List String :=
  ["id", "trigger_source", "type", "message", "broadcast_type"]

/-- Whether PostgreSQL accepts the INSERT of `trigger_alert` against the
schema: every referenced column must exist in the table and every
NOT NULL column without a DEFAULT must be assigned. -/
def alertsInsertAccepted : Bool :=
  alertsInsertColumns.all (fun c => alertsTableColumns.contains c) &&
  alertsRequiredInsertColumns.all (fun c => alertsInsertColumns.contains c)

/-- A send oracle under which every `send_text` succeeds. -/
def allSendOk : Nat → Bool := fun _ => true

/-- A send oracle under which exactly connection 2's `send_text` raises. -/
def sendOkExcept2 : Nat → Bool := fun c => c != 2

lemma haversine_unfold (lat1 lon1 lat2 lon2 : ℝ) :
    haversine lat1 lon1 lat2 lon2 =
      6371 * (2 * atan2 (Real.sqrt (haversineA lat1 lon1 lat2 lon2))
        (Real.sqrt (1 - haversineA lat1 lon1 lat2 lon2))) := rfl

lemma radians_sub (u v : ℝ) : radians (u - v) = radians u - radians v := by
  unfold radians; ring

lemma sin_sq_radians_symm (u v : ℝ) :
    Real.sin (radians (u - v) / 2) ^ 2 = Real.sin (radians (v - u) / 2) ^ 2 := by
  have h : radians (u - v) / 2 = -(radians (v - u) / 2) := by unfold radians; ring
  rw [h, Real.sin_neg, neg_sq]

lemma haversineA_comm (lat1 lon1 lat2 lon2 : ℝ) :
    haversineA lat1 lon1 lat2 lon2 = haversineA lat2 lon2 lat1 lon1 := by
  unfold haversineA
  rw [sin_sq_radians_symm lat2 lat1, sin_sq_radians_symm lon2 lon1]
  ring

lemma haversineA_self (lat lon : ℝ) : haversineA lat lon lat lon = 0 := by
  unfold haversineA
  simp [radians, sub_self]

lemma haversineA_le_one (lat1 lon1 lat2 lon2 : ℝ) :
    haversineA lat1 lon1 lat2 lon2 ≤ 1 := by
  unfold haversineA
  rw [radians_sub lat2 lat1]
  have hs : Real.sin ((radians lat2 - radians lat1) / 2) ^ 2 =
      1 / 2 - Real.cos (radians lat2 - radians lat1) / 2 := by
    have h2 : 2 * ((radians lat2 - radians lat1) / 2) = radians lat2 - radians lat1 := by
      ring
    rw [Real.sin_sq_eq_half_sub, h2]
  have hc := Real.cos_sub (radians lat2) (radians lat1)
  have hca := Real.cos_add (radians lat1) (radians lat2)
  have hle := Real.cos_le_one (radians lat1 + radians lat2)
  have hge := Real.neg_one_le_cos (radians lat2 - radians lat1)
  have ht1 : Real.sin (radians (lon2 - lon1) / 2) ^ 2 ≤ 1 := Real.sin_sq_le_one _
  have ht0 : 0 ≤ Real.sin (radians (lon2 - lon1) / 2) ^ 2 := sq_nonneg _
  by_cases hcc : 0 ≤ Real.cos (radians lat1) * Real.cos (radians lat2)
  · nlinarith [mul_le_mul_of_nonneg_left ht1 hcc]
  · push_neg at hcc
    nlinarith [mul_nonpos_of_nonpos_of_nonneg hcc.le ht0]

lemma atan2_zero_one : atan2 0 1 = 0 := by
  unfold atan2
  rw [if_pos one_pos, zero_div, Real.arctan_zero]

lemma atan2_sqrt_arcsin {A : ℝ} (hA : A ≤ 1) :
    atan2 (Real.sqrt A) (Real.sqrt (1 - A)) = Real.arcsin (Real.sqrt A) := by
  rcases lt_or_eq_of_le hA with hlt | heq
  · have hpos : 0 < Real.sqrt (1 - A) := Real.sqrt_pos.mpr (by linarith)
    unfold atan2
    rw [if_pos hpos]
    by_cases h0 : A ≤ 0
    · rw [Real.sqrt_eq_zero'.mpr h0]
      simp [Real.arctan_zero, Real.arcsin_zero, zero_div]
    · push_neg at h0
      have h0' : 0 ≤ A := h0.le
      have hlt1 : Real.sqrt A < 1 := by
        have h := Real.sqrt_lt_sqrt h0' hlt
        rwa [Real.sqrt_one] at h
      have hmem : Real.sqrt A ∈ Set.Ioo (-(1 : ℝ)) 1 :=
        Set.mem_Ioo.mpr ⟨by linarith [Real.sqrt_nonneg A], hlt1⟩
      rw [Real.arcsin_eq_arctan hmem, Real.sq_sqrt h0']
  · subst heq
    rw [sub_self, Real.sqrt_zero, Real.sqrt_one, Real.arcsin_one]
    unfold atan2
    norm_num

lemma mem_neighborhoodRecipients (reg : Registry) (c : Nat)
    (alat alon0 radius : ℝ) :
    c ∈ neighborhoodRecipients alat (some alon0) radius reg ↔
      ∃ info clat clon, (c, info) ∈ reg ∧
        info.location = some (some clat, some clon) ∧
        haversine alat alon0 clat clon ≤ radius := by
  unfold neighborhoodRecipients
  rw [List.mem_filterMap]
  constructor
  · rintro ⟨⟨w, info⟩, hp, hf⟩
    dsimp at hf
    rcases hloc : info.location with _ | ⟨clatOpt, clonOpt⟩
    · rw [hloc] at hf; cases hf
    · rw [hloc] at hf
      rcases clatOpt with _ | clat
      · cases hf
      rcases clonOpt with _ | clon
      · cases hf
      dsimp only at hf
      by_cases hd : haversine alat alon0 clat clon ≤ radius
      · rw [if_pos hd] at hf
        injection hf with hw
        subst hw
        exact ⟨info, clat, clon, hp, hloc, hd⟩
      · rw [if_neg hd] at hf; cases hf
  · rintro ⟨info, clat, clon, hmem, hloc, hd⟩
    refine ⟨(c, info), hmem, ?_⟩
    dsimp
    rw [hloc]
    dsimp only
    rw [if_pos hd]

lemma broadcastLoop_fst (recips : List Nat) (sendOk : Nat → Bool) :
    ∀ reg : Registry, (broadcastLoop recips sendOk reg).1 = recips.filter sendOk := by
  induction recips with
  | nil => intro reg; rfl
  | cons ws rest ih =>
    intro reg
    by_cases h : sendOk ws = true
    · simp [broadcastLoop, h, ih, List.filter_cons]
    · simp [broadcastLoop, h, ih, List.filter_cons]

lemma broadcastLoop_snd_mem (recips : List Nat) (sendOk : Nat → Bool) :
    ∀ (reg : Registry) (p : Nat × ConnInfo),
      p ∈ (broadcastLoop recips sendOk reg).2 ↔
        p ∈ reg ∧ (sendOk p.1 = true ∨ p.1 ∉ recips) := by
  induction recips with
  | nil => intro reg p; simp [broadcastLoop]
  | cons ws rest ih =>
    intro reg p
    by_cases h : sendOk ws = true
    · rw [broadcastLoop, if_pos h]
      dsimp only
      rw [ih reg p]
      simp only [List.mem_cons, not_or]
      constructor
      · rintro ⟨hmem, hok | hnot⟩
        · exact ⟨hmem, Or.inl hok⟩
        · by_cases hws : p.1 = ws
          · exact ⟨hmem, Or.inl (hws ▸ h)⟩
          · exact ⟨hmem, Or.inr ⟨hws, hnot⟩⟩
      · rintro ⟨hmem, hok | ⟨hne, hnot⟩⟩
        · exact ⟨hmem, Or.inl hok⟩
        · exact ⟨hmem, Or.inr hnot⟩
    · have h' : sendOk ws = false := by
        revert h; cases sendOk ws <;> simp
      rw [broadcastLoop, if_neg h]
      rw [ih (reg.filter fun q => q.1 != ws) p, List.mem_filter]
      simp only [bne_iff_ne, ne_eq, List.mem_cons, not_or]
      constructor
      · rintro ⟨⟨hmem, hne⟩, hok | hnot⟩
        · exact ⟨hmem, Or.inl hok⟩
        · exact ⟨hmem, Or.inr ⟨hne, hnot⟩⟩
      · rintro ⟨hmem, hok | ⟨hne, hnot⟩⟩
        · have hne : ¬p.1 = ws := fun he => by rw [he, h'] at hok; cases hok
          exact ⟨⟨hmem, hne⟩, Or.inl hok⟩
        · exact ⟨⟨hmem, hne⟩, Or.inr hnot⟩

/-- C1: for a `broadcast_neighborhood` alert dispatched over the tracked
registry, a connection is a recipient iff it is registered with a fully
non-null location whose haversine distance to the alert's coordinates is
within `radius_km`; a connection with no registered location is never a
recipient, for any radius however large. -/
theorem alerts_C1 (reg : Registry) (c : Nat) (alat alon0 radius : ℝ) :
    (c ∈ neighborhoodRecipients alat (some alon0) radius reg ↔
      ∃ info clat clon, (c, info) ∈ reg ∧
        info.location = some (some clat, some clon) ∧
        haversine alat alon0 clat clon ≤ radius) ∧
    ((∀ info, (c, info) ∈ reg → info.location = none) →
      ∀ bigRadius : ℝ, c ∉ neighborhoodRecipients alat (some alon0) bigRadius reg) := by
  refine ⟨mem_neighborhoodRecipients reg c alat alon0 radius, ?_⟩
  intro hall bigRadius hc
  obtain ⟨info, clat, clon, hmem, hloc, _⟩ :=
    (mem_neighborhoodRecipients reg c alat alon0 bigRadius).mp hc
  rw [hall info hmem] at hloc
  cases hloc

/-- Witness for C1: a connection tracked with no registered location is
not selected even with a radius of 1000000 km. -/
theorem alerts_C1_witness :
    (2 : Nat) ∉ neighborhoodRecipients 0 (some 0) 1000000 [(2, ⟨none, none⟩)] :=
  (alerts_C1 [(2, ⟨none, none⟩)] 2 0 0 0).2
    (fun info hinfo => by
      rw [List.mem_singleton] at hinfo
      injection hinfo with h1 h2
      rw [h2])
    1000000

/-- C2: for a `broadcast_all` alert, the recipient set is exactly the set
of all currently connected clients, whatever their tracked locations
(including none) and whatever the radius. -/
theorem alerts_C2 (alat : ℝ) (alon : Option ℝ) (radius : ℝ) (reg : Registry) :
    computeRecipients "broadcast_all" alat alon radius reg = reg.map Prod.fst ∧
    ∀ c : Nat, (c ∈ computeRecipients "broadcast_all" alat alon radius reg ↔
      ∃ info, (c, info) ∈ reg) := by
  have hall : computeRecipients "broadcast_all" alat alon radius reg =
      reg.map Prod.fst := by
    unfold computeRecipients
    rw [if_pos rfl]
  refine ⟨hall, ?_⟩
  intro c
  rw [hall, List.mem_map]
  constructor
  · rintro ⟨⟨w, info⟩, hp, hw⟩
    dsimp at hw
    subst hw
    exact ⟨info, hp⟩
  · rintro ⟨info, hmem⟩
    exact ⟨(c, info), hmem, rfl⟩

/-- C9: `haversine` is symmetric (`haversine a b = haversine b a`), returns
0 whenever the two coordinate pairs coincide, and computes the haversine
great-circle distance with Earth radius 6371 km: it agrees everywhere with
the standard `2 * R * arcsin (sqrt a)` form of the formula. -/
theorem alerts_C9 (lat1 lon1 lat2 lon2 : ℝ) :
    haversine lat1 lon1 lat2 lon2 = haversine lat2 lon2 lat1 lon1 ∧
    haversine lat1 lon1 lat1 lon1 = 0 ∧
    haversine lat1 lon1 lat2 lon2 = distanceKmSpec lat1 lon1 lat2 lon2 := by
  refine ⟨?_, ?_, ?_⟩
  · rw [haversine_unfold, haversine_unfold, haversineA_comm]
  · rw [haversine_unfold, haversineA_self, sub_zero, Real.sqrt_zero,
      Real.sqrt_one, atan2_zero_one]
    ring
  · rw [haversine_unfold, atan2_sqrt_arcsin (haversineA_le_one lat1 lon1 lat2 lon2)]
    show (6371 : ℝ) * (2 * Real.arcsin (Real.sqrt (haversineA lat1 lon1 lat2 lon2))) =
      2 * 6371 * Real.arcsin (Real.sqrt (haversineA lat1 lon1 lat2 lon2))
    ring

/-- C3: during a broadcast, when exactly one recipient's send raises, all
other recipients still receive the message, the failing connection's
entry is gone from the registry immediately after the loop, and the
caller of trigger is not handed an error: with no other exception the
response of `trigger_alert` is still the success response whatever
`sendOk` does. -/
theorem alerts_C3 (recips : List Nat) (sendOk : Nat → Bool) (reg : Registry)
    (f : Nat) (hf : sendOk f = false) (hother : ∀ c, c ≠ f → sendOk c = true) :
    (∀ c ∈ recips, c ≠ f → c ∈ (broadcastLoop recips sendOk reg).1) ∧
    (f ∈ recips → ∀ p ∈ (broadcastLoop recips sendOk reg).2, p.1 ≠ f) ∧
    (broadcastLoop recips sendOk reg).1 = recips.filter sendOk ∧
    (∀ (a : AlertTrigger) (user : User) (db : List AlertRow) (now : Nat)
      (newId : String), user.role = "emergency_service" →
      (trigger_alert a user db reg now newId none none sendOk).1 =
        .success (newId, now) "Alert triggered successfully") := by
  refine ⟨?_, ?_, broadcastLoop_fst recips sendOk reg, ?_⟩
  · intro c hc hne
    rw [broadcastLoop_fst]
    exact List.mem_filter.mpr ⟨hc, hother c hne⟩
  · intro hfin p hp hpf
    obtain ⟨hmem, hor⟩ := (broadcastLoop_snd_mem recips sendOk reg p).mp hp
    rcases hor with hok | hnot
    · rw [hpf, hf] at hok; cases hok
    · exact hnot (hpf ▸ hfin)
  · intro a user db now newId hrole
    unfold trigger_alert
    rw [if_neg (fun h => h hrole)]

/-- Witness for C3: with recipients 1, 2, 3 and connection 2's send
raising, connections 1 and 3 still receive, connection 2's entry is no
longer tracked afterward, and a trigger over this registry still
succeeds. -/
theorem alerts_C3_witness :
    (1 : Nat) ∈ (broadcastLoop [1, 2, 3] sendOkExcept2
      [(2, ⟨none, none⟩), (4, ⟨none, none⟩)]).1 ∧
    (3 : Nat) ∈ (broadcastLoop [1, 2, 3] sendOkExcept2
      [(2, ⟨none, none⟩), (4, ⟨none, none⟩)]).1 ∧
    ((2, (⟨none, none⟩ : ConnInfo)) ∉ (broadcastLoop [1, 2, 3] sendOkExcept2
      [(2, ⟨none, none⟩), (4, ⟨none, none⟩)]).2) ∧
    (trigger_alert ⟨"manual", "fire", "m", 0, none, 1, "broadcast_all"⟩
      ⟨"u1", "emergency_service"⟩ [] [(2, ⟨none, none⟩), (4, ⟨none, none⟩)]
      0 "a1" none none sendOkExcept2).1 =
        .success ("a1", 0) "Alert triggered successfully" := by
  have T := alerts_C3 [1, 2, 3] sendOkExcept2
    [(2, ⟨none, none⟩), (4, ⟨none, none⟩)] 2 rfl
    (fun c hc => by simp [sendOkExcept2, hc])
  exact ⟨T.1 1 (by decide) (by decide), T.1 3 (by decide) (by decide),
    fun hp => T.2.1 (by decide) _ hp rfl,
    T.2.2.2 ⟨"manual", "fire", "m", 0, none, 1, "broadcast_all"⟩
      ⟨"u1", "emergency_service"⟩ [] 0 "a1" rfl⟩

/-- Counterexample to C7 as stated: when the handler exits through an
exception other than `WebSocketDisconnect` (a protocol error in
`receive_text`, or a forced cancellation), no cleanup runs and the
connection is still in the registry. -/
theorem alerts_C7_counterexample :
    (1 : Nat) ∈ (websocketCleanup [(1, ⟨none, none⟩)] 1
      ExitCause.otherException).map Prod.fst := by
  simp [websocketCleanup]

/-- C7 amended: the handler of `/ws/alerts` removes the connection (and
with it all tracked location state) only on the `WebSocketDisconnect`
exit path; on any other exceptional exit the `try` has no matching
handler and no cleanup clause, so the registry is left unchanged and the
dead connection stays in every topic it was in. -/
theorem alerts_C7_amended (reg : Registry) (ws : Nat) :
    (∀ p ∈ websocketCleanup reg ws ExitCause.disconnect, p.1 ≠ ws) ∧
    websocketCleanup reg ws ExitCause.otherException = reg := by
  refine ⟨?_, rfl⟩
  intro p hp
  simp only [websocketCleanup] at hp
  exact bne_iff_ne.mp (List.mem_filter.mp hp).2

/-- Witness for C7 amended: after a disconnect exit of connection 1, an
entry surviving cleanup has a different id; an `otherException` exit
leaves the registry untouched. -/
theorem alerts_C7_amended_witness :
    websocketCleanup [(1, ⟨none, none⟩)] 1 ExitCause.otherException =
      [(1, ⟨none, none⟩)] ∧
    (2 : Nat) ≠ 1 :=
  ⟨(alerts_C7_amended [(1, ⟨none, none⟩)] 1).2,
   (alerts_C7_amended [(2, ⟨none, none⟩)] 1).1 (2, ⟨none, none⟩)
     (by simp [websocketCleanup])⟩

lemma getAlertRow_append_fresh (db : List AlertRow) (row : AlertRow)
    (h : ∀ r ∈ db, r.id ≠ row.id) :
    getAlertRow (db ++ [row]) row.id = some row := by
  induction db with
  | nil =>
    simp [getAlertRow, List.find?]
  | cons r rest ih =>
    have hne : r.id ≠ row.id := h r (List.mem_cons_self r rest)
    have hb : (r.id == row.id) = false := beq_eq_false_iff_ne.mpr hne
    simp only [getAlertRow, List.cons_append, List.find?, hb]
    exact ih fun s hs => h s (List.mem_cons_of_mem r hs)

/-- C4: in `trigger_alert` the INSERT precedes the dispatch, and when the
dispatch phase raises after the insert has committed, the alert row is
not rolled back: the caller receives the 500 failure response, yet the
new row is in the database and queryable by id. -/
theorem alerts_C4 (a : AlertTrigger) (user : User) (db : List AlertRow)
    (reg : Registry) (now : Nat) (newId : String) (e : String)
    (sendOk : Nat → Bool) (hrole : user.role = "emergency_service")
    (hfresh : ∀ r ∈ db, r.id ≠ newId) :
    trigger_alert a user db reg now newId none (some e) sendOk =
      (.error e 500, db ++ [mkAlertRow newId a user now], reg) ∧
    getAlertRow (db ++ [mkAlertRow newId a user now]) newId =
      some (mkAlertRow newId a user now) := by
  constructor
  · unfold trigger_alert
    rw [if_neg (fun h => h hrole)]
  · exact getAlertRow_append_fresh db (mkAlertRow newId a user now) hfresh

/-- Witness for C4: a dispatch failure after the insert leaves the caller
with a 500 response while the row exists and is found by id. -/
theorem alerts_C4_witness :
    trigger_alert ⟨"manual", "fire", "m", 0, none, 1, "broadcast_all"⟩
        ⟨"u1", "emergency_service"⟩ [] [] 0 "a1" none (some "boom") allSendOk =
      (.error "boom" 500,
        [mkAlertRow "a1" ⟨"manual", "fire", "m", 0, none, 1, "broadcast_all"⟩
          ⟨"u1", "emergency_service"⟩ 0], []) ∧
    getAlertRow [mkAlertRow "a1" ⟨"manual", "fire", "m", 0, none, 1, "broadcast_all"⟩
        ⟨"u1", "emergency_service"⟩ 0] "a1" =
      some (mkAlertRow "a1" ⟨"manual", "fire", "m", 0, none, 1, "broadcast_all"⟩
        ⟨"u1", "emergency_service"⟩ 0) :=
  alerts_C4 ⟨"manual", "fire", "m", 0, none, 1, "broadcast_all"⟩
    ⟨"u1", "emergency_service"⟩ [] [] 0 "a1" "boom" allSendOk rfl
    (fun r hr => absurd hr (List.not_mem_nil r))

/-- C5: for every actor whose role is not `emergency_service`, trigger and
resolve return the 403 permission error with no side effects (no row
written, nothing sent, registry untouched); for a privileged actor,
resolve returns the 404 not-found error when no alert with the given id
exists (the database is then also unchanged: the UPDATE matched no row). -/
theorem alerts_C5 :
    (∀ (a : AlertTrigger) (user : User) (db : List AlertRow) (reg : Registry)
      (now : Nat) (newId : String) (insertEx dispatchEx : Option String)
      (sendOk : Nat → Bool), user.role ≠ "emergency_service" →
      trigger_alert a user db reg now newId insertEx dispatchEx sendOk =
        (.error "Permission denied" 403, db, reg)) ∧
    (∀ (alertId : String) (user : User) (db : List AlertRow) (now : Nat),
      user.role ≠ "emergency_service" →
      resolve_alert alertId user db now = (.error "Permission denied" 403, db)) ∧
    (∀ (alertId : String) (user : User) (db : List AlertRow) (now : Nat),
      user.role = "emergency_service" → (∀ r ∈ db, r.id ≠ alertId) →
      resolve_alert alertId user db now = (.error "Alert not found" 404, db)) := by
  refine ⟨?_, ?_, ?_⟩
  · intro a user db reg now newId insertEx dispatchEx sendOk hrole
    unfold trigger_alert
    rw [if_pos hrole]
  · intro alertId user db now hrole
    unfold resolve_alert
    rw [if_pos hrole]
  · intro alertId user db now hrole hmiss
    unfold resolve_alert
    rw [if_neg (fun h => h hrole)]
    have hfil : (db.filter fun r => r.id == alertId) = [] :=
      List.filter_eq_nil_iff.mpr fun r hr =>
        by simpa using hmiss r hr
    have hmap : (db.map fun r =>
        if r.id == alertId then
          { r with status := "RESOLVED", cooldown_until := some (now + 3600) }
        else r) = db := by
      have hcongr : ∀ r ∈ db, (if r.id == alertId then
          { r with status := "RESOLVED", cooldown_until := some (now + 3600) }
        else r) = id r := by
        intro r hr
        have hb : (r.id == alertId) = false := beq_eq_false_iff_ne.mpr (hmiss r hr)
        rw [hb]
        rfl
      rw [List.map_congr_left hcongr, List.map_id]
    dsimp only
    rw [hfil, hmap]
    rfl

/-- Witness for C5: a citizen's trigger and resolve are rejected with 403
and untouched state; a privileged resolve of an unknown id yields 404. -/
theorem alerts_C5_witness :
    trigger_alert ⟨"manual", "fire", "m", 0, none, 1, "broadcast_all"⟩
        ⟨"u1", "citizen"⟩ [] [] 0 "a1" none none allSendOk =
      (.error "Permission denied" 403, [], []) ∧
    resolve_alert "a1" ⟨"u1", "citizen"⟩ [] 0 =
      (.error "Permission denied" 403, []) ∧
    resolve_alert "a1" ⟨"u1", "emergency_service"⟩ [] 0 =
      (.error "Alert not found" 404, []) :=
  ⟨alerts_C5.1 ⟨"manual", "fire", "m", 0, none, 1, "broadcast_all"⟩
      ⟨"u1", "citizen"⟩ [] [] 0 "a1" none none allSendOk (by decide),
   alerts_C5.2.1 "a1" ⟨"u1", "citizen"⟩ [] 0 (by decide),
   alerts_C5.2.2 "a1" ⟨"u1", "emergency_service"⟩ [] 0 rfl
     (fun r hr => absurd hr (List.not_mem_nil r))⟩

lemma resolve_alert_found (alertId : String) (user : User)
    (db : List AlertRow) (now : Nat) (hrole : user.role = "emergency_service")
    (r0 : AlertRow) (hr0 : r0 ∈ db) (hid : r0.id = alertId) :
    resolve_alert alertId user db now =
      (.success alertId "Alert resolved successfully",
        db.map fun r =>
          if r.id == alertId then
            { r with status := "RESOLVED", cooldown_until := some (now + 3600) }
          else r) := by
  unfold resolve_alert
  rw [if_neg (fun h => h hrole)]
  dsimp only
  have hmm : alertId ∈ (db.filter fun r => r.id == alertId).map AlertRow.id := by
    have hin : r0 ∈ db.filter fun r => r.id == alertId :=
      List.mem_filter.mpr ⟨hr0, beq_iff_eq.mpr hid⟩
    have := List.mem_map_of_mem AlertRow.id hin
    rwa [hid] at this
  cases hl : (db.filter fun r => r.id == alertId).map AlertRow.id with
  | nil => rw [hl] at hmm; cases hmm
  | cons rid rest =>
    have hrid : rid = alertId := by
      have hridmem : rid ∈ (db.filter fun r => r.id == alertId).map AlertRow.id := by
        rw [hl]; exact List.mem_cons_self rid rest
      obtain ⟨r, hrf, hrr⟩ := List.mem_map.mp hridmem
      have hb := (List.mem_filter.mp hrf).2
      rw [← hrr]
      exact beq_iff_eq.mp hb
    rw [hrid]

/-- C6: for every existing alert id and every actor with role
`emergency_service`, resolve succeeds, returns the alert's id, sets the
matched row's status to RESOLVED and its cooldown_until to now + 1 hour
(3600 s), and changes nothing else: every other field of the matched row
and every non-matching row are untouched. -/
theorem alerts_C6 (alertId : String) (user : User) (db : List AlertRow)
    (now : Nat) (r0 : AlertRow) (hrole : user.role = "emergency_service")
    (hr0 : r0 ∈ db) (hid : r0.id = alertId) :
    (resolve_alert alertId user db now).1 =
      .success alertId "Alert resolved successfully" ∧
    List.Forall₂ (fun r s : AlertRow =>
      s.id = r.id ∧ s.trigger_source = r.trigger_source ∧ s.type = r.type ∧
      s.message = r.message ∧ s.broadcast_type = r.broadcast_type ∧
      s.location_lat = r.location_lat ∧ s.location_lon = r.location_lon ∧
      s.radius_km = r.radius_km ∧ s.created_at = r.created_at ∧
      s.triggered_by = r.triggered_by ∧
      (r.id = alertId → s.status = "RESOLVED" ∧
        s.cooldown_until = some (now + 3600)) ∧
      (r.id ≠ alertId → s.status = r.status ∧
        s.cooldown_until = r.cooldown_until))
      db (resolve_alert alertId user db now).2 := by
  rw [resolve_alert_found alertId user db now hrole r0 hr0 hid]
  refine ⟨rfl, ?_⟩
  rw [List.forall₂_map_right_iff, List.forall₂_same]
  intro r hr
  by_cases hb : (r.id == alertId) = true
  · rw [if_pos hb]
    exact ⟨rfl, rfl, rfl, rfl, rfl, rfl, rfl, rfl, rfl, rfl,
      fun _ => ⟨rfl, rfl⟩, fun hne => absurd (beq_iff_eq.mp hb) hne⟩
  · rw [if_neg hb]
    exact ⟨rfl, rfl, rfl, rfl, rfl, rfl, rfl, rfl, rfl, rfl,
      fun he => absurd (beq_iff_eq.mpr he) hb, fun _ => ⟨rfl, rfl⟩⟩

/-- Witness for C6: a privileged resolve of an existing row returns the
success response carrying the alert id. -/
theorem alerts_C6_witness :
    (resolve_alert "a1" ⟨"u1", "emergency_service"⟩
      [⟨"a1", "manual", "fire", "m", some "broadcast_all", none, none, none,
        "ACTIVE", 0, none, none⟩] 7).1 =
      .success "a1" "Alert resolved successfully" :=
  (alerts_C6 "a1" ⟨"u1", "emergency_service"⟩
    [⟨"a1", "manual", "fire", "m", some "broadcast_all", none, none, none,
      "ACTIVE", 0, none, none⟩] 7
    ⟨"a1", "manual", "fire", "m", some "broadcast_all", none, none, none,
      "ACTIVE", 0, none, none⟩
    rfl (List.Mem.head _) rfl).1

/-- C8 fails on the code: the claim says every successful trigger persists
a row carrying the Alert entity's fields including `broadcast_type`.  But
the INSERT of `trigger_alert` names the column `triggered_by`, which does
not exist in the `alerts` table of `schema.py`, and leaves the NOT NULL
column `broadcast_type` (which has no default) unassigned, so against the
application's own schema the INSERT is rejected — and the row it attempts
to build never carries a `broadcast_type` value. -/
theorem alerts_C8 :
    alertsInsertAccepted = false ∧
    ("triggered_by" ∈ alertsInsertColumns ∧ "triggered_by" ∉ alertsTableColumns) ∧
    ("broadcast_type" ∈ alertsRequiredInsertColumns ∧
      "broadcast_type" ∉ alertsInsertColumns) ∧
    ∀ (newId : String) (a : AlertTrigger) (user : User) (now : Nat),
      (mkAlertRow newId a user now).broadcast_type = none ∧
      (mkAlertRow newId a user now).status = "ACTIVE" := by
  refine ⟨rfl, ⟨by decide, by decide⟩, ⟨by decide, by decide⟩, ?_⟩
  intro newId a user now
  exact ⟨rfl, rfl⟩

/-- C10: a `broadcast_neighborhood` alert with null `location_lon` (which
the request model `AlertTrigger` permits) selects no recipients over any
registry and any `radius_km` — negative radius included, since the model
does not constrain the sign either: every per-connection distance
computation raises, is caught, and the connection is skipped — yet
`trigger_alert` still returns the success response and no validation
error is produced. -/
theorem alerts_C10 (a : AlertTrigger) (user : User) (db : List AlertRow)
    (reg : Registry) (now : Nat) (newId : String) (sendOk : Nat → Bool)
    (hrole : user.role = "emergency_service") (hlon : a.location_lon = none)
    (hbt : a.broadcast_type ≠ "broadcast_all") :
    computeRecipients a.broadcast_type a.location_lat a.location_lon
      a.radius_km reg = [] ∧
    trigger_alert a user db reg now newId none none sendOk =
      (.success (newId, now) "Alert triggered successfully",
        db ++ [mkAlertRow newId a user now], reg) := by
  have hrec : computeRecipients a.broadcast_type a.location_lat a.location_lon
      a.radius_km reg = [] := by
    unfold computeRecipients
    rw [if_neg hbt, hlon]
    unfold neighborhoodRecipients
    apply List.filterMap_eq_nil_iff.mpr
    rintro ⟨w, info⟩ hp
    dsimp only
    cases hloc : info.location with
    | none => rfl
    | some pair =>
      rcases pair with ⟨clatOpt, clonOpt⟩
      cases clatOpt with
      | none => rfl
      | some clat =>
        cases clonOpt with
        | none => rfl
        | some clon => rfl
  refine ⟨hrec, ?_⟩
  unfold trigger_alert
  rw [if_neg (fun h => h hrole)]
  dsimp only
  rw [hrec]
  rfl

/-- Witness for C10: a neighborhood alert with null longitude and radius
-5 over a registry holding a fully-located connection reaches nobody and
still yields the success response. -/
theorem alerts_C10_witness :
    computeRecipients "broadcast_neighborhood" 0 none (-5)
      [(1, ⟨some (some 0, some 0), none⟩)] = [] ∧
    trigger_alert ⟨"manual", "fire", "m", 0, none, -5, "broadcast_neighborhood"⟩
        ⟨"u1", "emergency_service"⟩ [] [(1, ⟨some (some 0, some 0), none⟩)]
        0 "a1" none none allSendOk =
      (.success ("a1", 0) "Alert triggered successfully",
        [mkAlertRow "a1" ⟨"manual", "fire", "m", 0, none, -5, "broadcast_neighborhood"⟩
          ⟨"u1", "emergency_service"⟩ 0],
        [(1, ⟨some (some 0, some 0), none⟩)]) :=
  alerts_C10 ⟨"manual", "fire", "m", 0, none, -5, "broadcast_neighborhood"⟩
    ⟨"u1", "emergency_service"⟩ [] [(1, ⟨some (some 0, some 0), none⟩)]
    0 "a1" allSendOk rfl rfl (by decide)

end CitizenSafety
